import Mathlib

/-!
Verification of the xcrun resolution-and-dispatch engine
(src/xcode_tools/xcrun/xcrun.c) against its natural-language
specification.

The C program is shallowly embedded: the file system is an explicit
value (directories, parsed ini files, raw files, executables), getenv
is a function from variable name to optional value, process-global
flags are threaded explicitly, and process exit / exec are modelled as
constructors of result types.  C strings are Lean Strings; a NULL
`const char *` or an uninitialized struct field is modelled as `none`.
-/

set_option autoImplicit false

namespace Xcrun

/-! ## String helpers from the source -/

/-- Index of the first occurrence of a character, mirroring libc
strchr as used by stripext (xcrun.c line 110). -/
def strchrIdx : List Char → Char → Option Nat
  | [], _ => none
  | c :: cs, t => if c = t then some 0 else (strchrIdx cs t).map (· + 1)

/-- stripext on the character list (xcrun.c lines 105-116): copy the
prefix before the first dot (strchr finds the first occurrence), or
the whole string when there is no dot. -/
def stripextData (l : List Char) : List Char :=
  match strchrIdx l '.' with
  | some i => l.take i
  | none => l

/-- stripext (xcrun.c lines 105-116). -/
def stripext (src : String) : String :=
  ⟨stripextData src.data⟩

/-- libgen basename as used at xcrun.c lines 737, 746, 871, 876, 952,
958, 979, 1091: the part of the string after the last slash.  (The
libc corner cases for inputs that are empty or all slashes are not
exercised by the claims.) -/
def basename (s : String) : String :=
  ⟨(s.data.reverse.takeWhile (fun c => c ≠ '/')).reverse⟩

/-! ## Target Triple Deriver (xcrun.c lines 477-579) -/

/-- Scanner state of parse_target_triple: `where` (which version
component digits accumulate into) and the three components xx, yy, zz
(major, minor, patch). -/
structure VState where
  whereIdx : Nat
  xx : Nat
  yy : Nat
  zz : Nat
deriving DecidableEq, Repr

/-- One character of the scanning loop of parse_target_triple
(xcrun.c lines 492-529): a decimal digit accumulates base-10 into the
component selected by `where` (components past the third are
discarded); any other character, notably a dot, advances `where`. -/
def triple_scan_step (st : VState) (ch : Char) : VState :=
  if '0' ≤ ch ∧ ch ≤ '9' then
    match st.whereIdx with
    | 1 => { st with xx := st.xx * 10 + (ch.toNat - '0'.toNat) }
    | 2 => { st with yy := st.yy * 10 + (ch.toNat - '0'.toNat) }
    | 3 => { st with zz := st.zz * 10 + (ch.toNat - '0'.toNat) }
    | _ => st
  else
    { st with whereIdx := st.whereIdx + 1 }

/-- The full version scan.  The C do-while loop also feeds the
terminating NUL character to the switch, which only increments
`where`; that final increment is applied after the fold. -/
def scan_version (ver : String) : VState :=
  let st := ver.data.foldl triple_scan_step ⟨1, 0, 0, 0⟩
  { st with whereIdx := st.whereIdx + 1 }

/-- The kernel-version switch of parse_target_triple (xcrun.c lines
531-574), keyed on the parsed major xx (and minor yy for majors 10
and 4).  Cases 8 and 7 share a body by fallthrough; case 1 shares the
default body. -/
def kern_ver_of (xx yy : Nat) (is_macosx : Bool) : Nat :=
  match xx with
  | 11 => 17
  | 10 => if is_macosx then yy + 4 else 16
  | 9 => 15
  | 8 => 14
  | 7 => 14
  | 6 => 13
  | 5 => 11
  | 4 => if yy ≤ 2 then 10 else 11
  | 3 => 10
  | 2 => 9
  | _ => 9

/-- parse_target_triple (xcrun.c lines 477-579).  The C function
fills a caller-supplied buffer and simply returns when ver is NULL,
leaving the buffer untouched (its callers pass a zeroed buffer, i.e.
no triple); that outcome is `none`.  Architectures x86_64 and i386
are classified as macOS (line 487). -/
def parse_target_triple (ver : Option String) (arch : String) : Option String :=
  match ver with
  | none => none
  | some v =>
    let is_macosx := arch = "x86_64" || arch = "i386"
    let st := scan_version v
    some (arch ++ "-apple-darwin" ++ toString (kern_ver_of st.xx st.yy is_macosx))

/-- The kernel-major table exactly as the specification's claim lists
it (spec section 4.3): keyed on the parsed major, consulting the
minor only for majors 10 (macOS-classified) and 4, never the patch. -/
def kernelMajorTable (major minor : Nat) (isMacClassified : Bool) : Nat :=
  if major = 11 then 17
  else if major = 10 then (if isMacClassified then minor + 4 else 16)
  else if major = 9 then 15
  else if major = 7 ∨ major = 8 then 14
  else if major = 6 then 13
  else if major = 5 then 11
  else if major = 4 then (if minor ≤ 2 then 10 else 11)
  else if major = 3 then 10
  else if major = 2 then 9
  else 9

/-! ## File-system and environment model -/

/-- An ini key=value line under a [Section] header, as handed to the
ini handlers: section name, key name, value. -/
structure IniEntry where
  sec : String
  name : String
  value : String
deriving DecidableEq, Repr

/-- The observable file-system state: existing directories, existing
ini files with their parsed entry sequences, raw text files (the
developer-path cache), and executable files. -/
structure FS where
  dirs : List String
  inis : List (String × List IniEntry)
  files : List (String × String)
  execs : List String
deriving DecidableEq, Repr

def FS.isDir (fs : FS) (p : String) : Bool :=
  fs.dirs.contains p

def FS.iniFile (fs : FS) (p : String) : Option (List IniEntry) :=
  (fs.inis.find? (fun e => e.1 = p)).map (·.2)

def FS.rawFile (fs : FS) (p : String) : Option String :=
  (fs.files.find? (fun e => e.1 = p)).map (·.2)

def FS.isExec (fs : FS) (p : String) : Bool :=
  fs.execs.contains p

/-- validate_directory_path (xcrun.c lines 216-231): stat succeeds
and the path is a directory. -/
def validate_directory_path (fs : FS) (dir : String) : Bool :=
  fs.isDir dir

/-- test_sdk_authenticity (xcrun.c lines 119-129): path/info.ini
exists. -/
def test_sdk_authenticity (fs : FS) (path : String) : Bool :=
  (fs.iniFile (path ++ "/info.ini")).isSome

/-! ## Path Resolver (xcrun.c lines 420-469)

Both resolvers read the developer_dir global; it is passed
explicitly.  The C functions print an error and exit(1) when the
constructed path is not an existing directory; that outcome is
`none`.  (The NULL check on the address of the global array at lines
427 and 455 can never fire.) -/

/-- get_toolchain_path (xcrun.c lines 420-441). -/
def get_toolchain_path (fs : FS) (developer_dir name : String) : Option String :=
  let path := developer_dir ++ "/Toolchains/" ++ name ++ ".toolchain"
  if validate_directory_path fs path then some path else none

/-- get_sdk_path (xcrun.c lines 448-469). -/
def get_sdk_path (fs : FS) (developer_dir name : String) : Option String :=
  let path := developer_dir ++ "/SDKs/" ++ name ++ ".sdk"
  if validate_directory_path fs path then some path else none

/-! ## Configuration Loader (xcrun.c lines 241-366)

The process-global platform flags ios_deployment_target_set and
macosx_deployment_target_set (xcrun.c lines 81-82) are threaded
explicitly as a DTFlags value. -/

/-- The two global deployment-target flags (xcrun.c lines 81-82). -/
structure DTFlags where
  ios_deployment_target_set : Bool
  macosx_deployment_target_set : Bool
deriving DecidableEq, Repr

/-- sdk_config (xcrun.c lines 59-65).  The C struct is an
uninitialized stack local in get_sdk_info; a field never assigned by
the handler is modelled as `none`. -/
structure sdk_config where
  name : Option String
  version : Option String
  toolchain : Option String
  default_arch : Option String
  deployment_target : Option String
deriving DecidableEq, Repr

/-- default_config (xcrun.c lines 68-71), same uninitialized-field
convention. -/
structure default_config where
  sdk : Option String
  toolchain : Option String
deriving DecidableEq, Repr

/-- sdk_cfg_handler (xcrun.c lines 263-287) applied to one ini entry.
Known keys overwrite any earlier value; the two deployment-target
keys additionally set one global flag and clear the other (lines
275-282).  An unknown key makes the C handler return 0, which
ini_parse records without stopping; the entry is simply skipped. -/
def sdk_cfg_handler (acc : sdk_config × DTFlags) (e : IniEntry) : sdk_config × DTFlags :=
  if e.sec = "SDK" && e.name = "name" then ({ acc.1 with name := some e.value }, acc.2)
  else if e.sec = "SDK" && e.name = "version" then ({ acc.1 with version := some e.value }, acc.2)
  else if e.sec = "SDK" && e.name = "toolchain" then ({ acc.1 with toolchain := some e.value }, acc.2)
  else if e.sec = "SDK" && e.name = "default_arch" then ({ acc.1 with default_arch := some e.value }, acc.2)
  else if e.sec = "SDK" && e.name = "iphoneos_deployment_target" then
    ({ acc.1 with deployment_target := some e.value }, ⟨true, false⟩)
  else if e.sec = "SDK" && e.name = "macosx_deployment_target" then
    ({ acc.1 with deployment_target := some e.value }, ⟨false, true⟩)
  else acc

/-- default_cfg_handler (xcrun.c lines 297-309). -/
def default_cfg_handler (config : default_config) (e : IniEntry) : default_config :=
  if e.sec = "SDK" && e.name = "name" then { config with sdk := some e.value }
  else if e.sec = "TOOLCHAIN" && e.name = "name" then { config with toolchain := some e.value }
  else config

/-- Modelled from the spec: ini_parse of ini.h is not under src/.
Spec section 4.1: ini files are [Section] headers with key=value
lines, handed entry by entry to the handler; unknown keys are ignored
without failing the parse; known keys overwrite earlier values (last
occurrence wins).  The only ini_parse outcome its callers in xcrun.c
treat as failure is the -1 return for a file that cannot be opened
(lines 323, 343, 360; spec ConfigNotFound); a per-record completeness
check cannot live in ini_parse, whose interface is a per-entry
callback.  So: a missing file is `none`, any existing file folds the
handler over its entries. -/
def ini_parse_sdk (fs : FS) (ini_path : String) (fl : DTFlags) :
    Option (sdk_config × DTFlags) :=
  (fs.iniFile ini_path).map
    (fun es => es.foldl sdk_cfg_handler (⟨none, none, none, none, none⟩, fl))

/-- get_sdk_info (xcrun.c lines 336-349): parse path/info.ini; on a
missing file print an error and exit(1), modelled `none`. -/
def get_sdk_info (fs : FS) (path : String) (fl : DTFlags) :
    Option (sdk_config × DTFlags) :=
  ini_parse_sdk fs (path ++ "/info.ini") fl

/-- get_default_info (xcrun.c lines 356-366), same ini_parse model
with default_cfg_handler and a fresh uninitialized default_config. -/
def get_default_info (fs : FS) (path : String) : Option default_config :=
  (fs.iniFile path).map (fun es => es.foldl default_cfg_handler ⟨none, none⟩)

/-! ## Derived views of an SDK record used in theorem statements -/

/-- Platform kind of a deployment-target key. -/
inductive DepKind
  | ios
  | macos
deriving DecidableEq, Repr

/-- The deployment-target key carried by one ini entry, if any. -/
def dk_of_entry (e : IniEntry) : Option (DepKind × String) :=
  if e.sec = "SDK" && e.name = "iphoneos_deployment_target" then some (DepKind.ios, e.value)
  else if e.sec = "SDK" && e.name = "macosx_deployment_target" then some (DepKind.macos, e.value)
  else none

/-- Keep the deployment-target key of the current entry if it has
one, else the one remembered so far. -/
def last_dk_step (acc : Option (DepKind × String)) (e : IniEntry) : Option (DepKind × String) :=
  match dk_of_entry e with
  | some p => some p
  | none => acc

/-- The last deployment-target key of a record's entry sequence: this
is the record's own platform kind and deployment-target value. -/
def lastDeploymentKey (es : List IniEntry) : Option (DepKind × String) :=
  es.foldl last_dk_step none

/-- Global-flag state denoted by a platform kind. -/
def flagsOfKind : DepKind → DTFlags
  | DepKind.ios => ⟨true, false⟩
  | DepKind.macos => ⟨false, true⟩

/-- Global-flag state after parsing a record's entries starting from
flags fl. -/
def flags_after (es : List IniEntry) (fl : DTFlags) : DTFlags :=
  match lastDeploymentKey es with
  | some p => flagsOfKind p.1
  | none => fl

/-- The sdk_config produced by parsing an entry sequence (the config
component does not depend on the incoming flags; proved below). -/
def sdkCfgOfEntries (es : List IniEntry) : sdk_config :=
  (es.foldl sdk_cfg_handler (⟨none, none, none, none, none⟩, ⟨false, false⟩)).1

/-- The config component of one sdk_cfg_handler application, on its
own (proved below to agree with sdk_cfg_handler). -/
def cfg_step (c : sdk_config) (e : IniEntry) : sdk_config :=
  if e.sec = "SDK" && e.name = "name" then { c with name := some e.value }
  else if e.sec = "SDK" && e.name = "version" then { c with version := some e.value }
  else if e.sec = "SDK" && e.name = "toolchain" then { c with toolchain := some e.value }
  else if e.sec = "SDK" && e.name = "default_arch" then { c with default_arch := some e.value }
  else if e.sec = "SDK" && e.name = "iphoneos_deployment_target" then
    { c with deployment_target := some e.value }
  else if e.sec = "SDK" && e.name = "macosx_deployment_target" then
    { c with deployment_target := some e.value }
  else c

/-- The flag component of one sdk_cfg_handler application, on its own
(proved below to agree with sdk_cfg_handler). -/
def flag_step (f : DTFlags) (e : IniEntry) : DTFlags :=
  match dk_of_entry e with
  | some p => flagsOfKind p.1
  | none => f

/-! ## Target-triple getter and Environment Composer
(xcrun.c lines 586-604 and 613-682) -/

/-- get_target_triple (xcrun.c lines 586-604).  An inherited
TARGET_TRIPLE is returned verbatim before anything else.  Otherwise
the current SDK's info.ini is parsed twice (lines 595 and 598,
threading the global flags); an unset default_arch or
deployment_target field makes the strdup NULL check fire and the
function return NULL, modelled as inner `none`.  A failing
get_sdk_path or a missing info.ini exits the process, modelled as
outer `none`. -/
def get_target_triple (env : String → Option String) (fs : FS)
    (developer_dir current_sdk : String) (fl : DTFlags) :
    Option (Option String × DTFlags) :=
  match env "TARGET_TRIPLE" with
  | some t => some (some t, fl)
  | none =>
    match get_sdk_path fs developer_dir current_sdk with
    | none => none
    | some sp =>
      match get_sdk_info fs sp fl with
      | none => none
      | some (c1, f1) =>
        match c1.default_arch with
        | none => some (none, f1)
        | some arch =>
          match get_sdk_info fs sp f1 with
          | none => none
          | some (c2, f2) =>
            match c2.deployment_target with
            | none => some (none, f2)
            | some dt => some (parse_target_triple (some dt) arch, f2)

/-- What sprintf "%s" prints for a NULL pointer in glibc; getenv of
an absent variable at xcrun.c lines 647 and 649 flows into sprintf
unchecked. -/
def cstr (o : Option String) : String :=
  o.getD "(null)"

/-- The composed child environment: one field per envp slot of
call_command (xcrun.c lines 638-672).  Slots 4 and 5 stay as the
calloc'd empty string when unset, which leaves the corresponding
variable absent from the child environment; those are `none` here. -/
structure child_env where
  sdkroot : String
  path : String
  ld_library_path : String
  home : String
  developer_dir : String
  target_triple : Option String
  deployment : Option (DepKind × String)
deriving DecidableEq, Repr

/-- Outcome of call_command (xcrun.c lines 613-682): reaching execve
with a fully composed environment, or aborting first (an exit(1)
inside a helper, or the -1 return at line 670).  `warned` records
whether the missing-target-triple warning of line 655 was printed. -/
inductive CallOutcome
  | exec (ce : child_env) (warned : Bool)
  | abort (warned : Bool)
deriving DecidableEq, Repr

/-- The relevant process-global state of one invocation (xcrun.c
lines 74-91): developer_dir, current_sdk, current_toolchain, the two
explicit modes, the two alternate paths, finding_mode and the
deployment-target flags. -/
structure XcrunState where
  developer_dir : String
  current_sdk : String
  current_toolchain : String
  explicit_sdk_mode : Bool
  explicit_toolchain_mode : Bool
  alternate_sdk_path : Option String
  alternate_toolchain_path : Option String
  finding_mode : Bool
  flags : DTFlags
deriving DecidableEq, Repr

/-- call_command (xcrun.c lines 613-682), environment composition
part (the argv pass-through does not affect the claims).  Slot
order: SDKROOT (line 646, exits if the SDK path is invalid), PATH
and LD_LIBRARY_PATH (lines 647-648, exit if the toolchain path is
invalid), HOME, DEVELOPER_DIR, TARGET_TRIPLE (lines 652-655, warning
instead of a variable when the getter returns NULL), then exactly one
deployment-target slot (lines 657-672): inherited IPHONEOS_ checked
before inherited MACOSX_, else the SDK record's value under the kind
of the global flags, re-set by the record's own parse at line 663. -/
def call_command (env : String → Option String) (fs : FS) (st : XcrunState) : CallOutcome :=
  match get_sdk_path fs st.developer_dir st.current_sdk with
  | none => CallOutcome.abort false
  | some sp =>
    match get_toolchain_path fs st.developer_dir st.current_toolchain with
    | none => CallOutcome.abort false
    | some tp =>
      let base : child_env :=
        { sdkroot := sp
          path := st.developer_dir ++ "/usr/bin:" ++ tp ++ "/usr/bin:" ++ cstr (env "PATH")
          ld_library_path := tp ++ "/usr/lib"
          home := cstr (env "HOME")
          developer_dir := st.developer_dir
          target_triple := none
          deployment := none }
      match get_target_triple env fs st.developer_dir st.current_sdk st.flags with
      | none => CallOutcome.abort false
      | some (tt, f1) =>
        let warned := tt.isNone
        match env "IPHONEOS_DEPLOYMENT_TARGET" with
        | some v =>
          CallOutcome.exec { base with target_triple := tt, deployment := some (DepKind.ios, v) } warned
        | none =>
          match env "MACOSX_DEPLOYMENT_TARGET" with
          | some v =>
            CallOutcome.exec { base with target_triple := tt, deployment := some (DepKind.macos, v) } warned
          | none =>
            match get_sdk_info fs sp f1 with
            | none => CallOutcome.abort warned
            | some (c, f2) =>
              match c.deployment_target with
              | none => CallOutcome.abort warned
              | some dt =>
                if f2.macosx_deployment_target_set then
                  CallOutcome.exec { base with target_triple := tt, deployment := some (DepKind.macos, dt) } warned
                else if f2.ios_deployment_target_set then
                  CallOutcome.exec { base with target_triple := tt, deployment := some (DepKind.ios, dt) } warned
                else
                  CallOutcome.exec { base with target_triple := tt } warned

/-! ## Search Path Builder and Command Locator
(xcrun.c lines 691-811) -/

/-- search_command (xcrun.c lines 691-717): first directory entry
whose entry/name is an existing executable wins. -/
def search_command (fs : FS) (dirs : List String) (name : String) : Option String :=
  (dirs.find? (fun d => fs.isExec (d ++ "/" ++ name))).map (fun d => d ++ "/" ++ name)

/-- The search-string construction of request_command (xcrun.c lines
753-787), as the list of directory entries the colon-joined string
splits into (strtok drops the empty entry a trailing colon leaves).
Always starts with developer_dir/usr/bin (line 754).  Branch order:
explicit_sdk_mode (goto do_search), explicit_toolchain_mode (goto),
alternate_sdk_path (goto only when its info.ini exists, otherwise
fall through), alternate_toolchain_path, and the all-default branch
guarded by all four being unset.  Returns the entries and the global
flags after any SDK parse done on the way; `none` models the exits
inside get_sdk_path / get_sdk_info / get_toolchain_path and the
undefined strdup of an unset toolchain field. -/
def build_search_string (fs : FS) (st : XcrunState) : Option (List String × DTFlags) :=
  let dev := st.developer_dir ++ "/usr/bin"
  if st.explicit_sdk_mode then
    match get_sdk_path fs st.developer_dir st.current_sdk with
    | none => none
    | some sp =>
      match get_sdk_info fs sp st.flags with
      | none => none
      | some (c, f1) =>
        match c.toolchain with
        | none => none
        | some tn =>
          match get_toolchain_path fs st.developer_dir tn with
          | none => none
          | some tp => some ([dev, sp ++ "/usr/bin", tp ++ "/usr/bin"], f1)
  else if st.explicit_toolchain_mode then
    match get_toolchain_path fs st.developer_dir st.current_toolchain with
    | none => none
    | some tp => some ([dev, tp ++ "/usr/bin"], st.flags)
  else
    match st.alternate_sdk_path with
    | some ap =>
      if test_sdk_authenticity fs ap then
        match get_sdk_info fs ap st.flags with
        | none => none
        | some (c, f1) =>
          match c.toolchain with
          | none => none
          | some tn =>
            match get_toolchain_path fs st.developer_dir tn with
            | none => none
            | some tp => some ([dev, ap ++ "/usr/bin", tp ++ "/usr/bin"], f1)
      else
        match st.alternate_toolchain_path with
        | some atp => some ([dev, ap ++ "/usr/bin", atp ++ "/usr/bin"], st.flags)
        | none => some ([dev, ap ++ "/usr/bin"], st.flags)
    | none =>
      match st.alternate_toolchain_path with
      | some atp => some ([dev, atp ++ "/usr/bin"], st.flags)
      | none =>
        match get_sdk_path fs st.developer_dir st.current_sdk with
        | none => none
        | some sp =>
          match get_toolchain_path fs st.developer_dir st.current_toolchain with
          | none => none
          | some tp => some ([dev, sp ++ "/usr/bin", tp ++ "/usr/bin"], st.flags)

/-- The Search Path Builder exactly as claim C1 and spec section 4.4
state it: five branches in precedence order, the first matching
branch terminal, exactly one branch contributing beyond the
always-present first entry.  In particular the alternate-SDK branch
(3) is terminal whether or not the directory holds a metadata file. -/
def claimSearchPathC1 (fs : FS) (st : XcrunState) : Option (List String) :=
  let first := st.developer_dir ++ "/usr/bin"
  if st.explicit_sdk_mode then do
    let sp ← get_sdk_path fs st.developer_dir st.current_sdk
    let c ← (get_sdk_info fs sp st.flags).map (·.1)
    let tn ← c.toolchain
    let tp ← get_toolchain_path fs st.developer_dir tn
    pure [first, sp ++ "/usr/bin", tp ++ "/usr/bin"]
  else if st.explicit_toolchain_mode then do
    let tp ← get_toolchain_path fs st.developer_dir st.current_toolchain
    pure [first, tp ++ "/usr/bin"]
  else
    match st.alternate_sdk_path with
    | some ap =>
      if test_sdk_authenticity fs ap then do
        let c ← (get_sdk_info fs ap st.flags).map (·.1)
        let tn ← c.toolchain
        let tp ← get_toolchain_path fs st.developer_dir tn
        pure [first, ap ++ "/usr/bin", tp ++ "/usr/bin"]
      else pure [first, ap ++ "/usr/bin"]
    | none =>
      match st.alternate_toolchain_path with
      | some atp => pure [first, atp ++ "/usr/bin"]
      | none => do
        let sp ← get_sdk_path fs st.developer_dir st.current_sdk
        let tp ← get_toolchain_path fs st.developer_dir st.current_toolchain
        pure [first, sp ++ "/usr/bin", tp ++ "/usr/bin"]

/-! ## Dispatcher (xcrun.c lines 725-811, 819-1065, 1074-1128) -/

/-- Fallback resolution of the current SDK name (xcrun.c lines
735-742 and 977-984): keep a nonempty current_sdk, else the basename
of SDKROOT with its extension stripped, else the name from the
system-wide default file /etc/xcrun.ini.  An unset name field there
feeds strlen/strncpy with garbage (undefined); modelled as failure,
like the exit when the file is missing. -/
def resolve_sdk_name (env : String → Option String) (fs : FS) (cur : String) : Option String :=
  if cur ≠ "" then some cur
  else
    match env "SDKROOT" with
    | some v => some (stripext (basename v))
    | none =>
      match get_default_info fs "/etc/xcrun.ini" with
      | none => none
      | some dc => dc.sdk

/-- Fallback resolution of the current toolchain name (xcrun.c lines
744-751 and 986-993), symmetric to resolve_sdk_name with TOOLCHAINS
and the default file's toolchain name. -/
def resolve_toolchain_name (env : String → Option String) (fs : FS) (cur : String) : Option String :=
  if cur ≠ "" then some cur
  else
    match env "TOOLCHAINS" with
    | some v => some (stripext (basename v))
    | none =>
      match get_default_info fs "/etc/xcrun.ini" with
      | none => none
      | some dc => dc.toolchain

/-- Outcome of request_command: the found path printed in finding
mode, execve reached with a composed child environment, or any
failure (-1 return or exit on the way). -/
inductive ReqResult
  | found (cmd : String)
  | execed (cmd : String) (ce : child_env) (warned : Bool)
  | fail
deriving DecidableEq, Repr

/-- request_command (xcrun.c lines 725-811): resolve missing
SDK/toolchain names, build the search string, locate the command,
then print it (finding mode) or compose the environment and exec. -/
def request_command (env : String → Option String) (fs : FS)
    (st : XcrunState) (name : String) : ReqResult :=
  match resolve_sdk_name env fs st.current_sdk with
  | none => ReqResult.fail
  | some sdk =>
    match resolve_toolchain_name env fs st.current_toolchain with
    | none => ReqResult.fail
    | some tc =>
      let st1 := { st with current_sdk := sdk, current_toolchain := tc }
      match build_search_string fs st1 with
      | none => ReqResult.fail
      | some (dirs, f1) =>
        match search_command fs dirs name with
        | none => ReqResult.fail
        | some cmd =>
          if st.finding_mode then ReqResult.found cmd
          else
            match call_command env fs { st1 with flags := f1 } with
            | CallOutcome.exec ce w => ReqResult.execed cmd ce w
            | CallOutcome.abort _ => ReqResult.fail

/-- The --sdk option handler of xcrun_main (xcrun.c lines 889-906):
an argument starting with a dash is an error; an absolute path is
validated and stored as alternate_sdk_path; any other name sets
explicit_sdk_mode and current_sdk := stripext(name). -/
def xcrun_sdk_option (fs : FS) (st : XcrunState) (optarg : String) : Option XcrunState :=
  if optarg.data.head? = some '-' then none
  else if optarg.data.head? = some '/' then
    if validate_directory_path fs optarg then some { st with alternate_sdk_path := some optarg }
    else none
  else some { st with explicit_sdk_mode := true, current_sdk := stripext optarg }

/-- The --toolchain option handler of xcrun_main (xcrun.c lines
908-926), symmetric to the --sdk handler. -/
def xcrun_toolchain_option (fs : FS) (st : XcrunState) (optarg : String) : Option XcrunState :=
  if optarg.data.head? = some '-' then none
  else if optarg.data.head? = some '/' then
    if validate_directory_path fs optarg then some { st with alternate_toolchain_path := some optarg }
    else none
  else some { st with explicit_toolchain_mode := true, current_toolchain := stripext optarg }

/-- The four multicall alias names (xcrun.c lines 94-99). -/
def multicall_tool_names : List String :=
  ["xcrun", "xcrun_log", "xcrun_verbose", "xcrun_nocache"]

/-- get_multicall_state (xcrun.c lines 1074-1084): the loop runs i
from 0 to state_size - 2 inclusive, so only the first state_size - 1
names are compared; a match yields i + 1, otherwise -1. -/
def get_multicall_state (cmd : String) (state : List String) (state_size : Nat) : Int :=
  match (List.range (state_size - 1)).find? (fun i => state.getD i "" = cmd) with
  | some i => (i : Int) + 1
  | none => -1

/-- get_developer_path (xcrun.c lines 373-413): DEVELOPER_DIR wins;
otherwise the cache file HOME/.xcdev.dat is read whole; a missing
HOME or unreadable cache is failure. -/
def get_developer_path (env : String → Option String) (fs : FS) : Option String :=
  match env "DEVELOPER_DIR" with
  | some d => some d
  | none =>
    match env "HOME" with
    | none => none
    | some h => fs.rawFile (h ++ "/" ++ ".xcdev.dat")

/-- What main does after resolving the developer dir: run the flag
driven xcrun_main flow (with logging/verbose pre-set by the alias),
or treat the invoking name itself as the tool to locate and run. -/
inductive MainBehavior
  | xcrun_flow (logging verbose : Bool)
  | tool_dispatch (r : ReqResult)
deriving DecidableEq, Repr

/-- The process-global state at program start, after developer_dir
has been filled in: everything else zeroed (xcrun.c lines 74-91). -/
def initial_state (developer_dir : String) : XcrunState :=
  { developer_dir := developer_dir
    current_sdk := ""
    current_toolchain := ""
    explicit_sdk_mode := false
    explicit_toolchain_mode := false
    alternate_sdk_path := none
    alternate_toolchain_path := none
    finding_mode := false
    flags := ⟨false, false⟩ }

/-- main (xcrun.c lines 1086-1128): strip argv[0] to its basename,
resolve the developer dir (zero bytes read means immediate failure,
modelled `none`), then switch on the multicall state: cases 1-4 run
xcrun_main (2 pre-sets logging, 3 pre-sets verbose), and any
unrecognized name is located and executed as a tool via
request_command on the zeroed state. -/
def main_dispatch (env : String → Option String) (fs : FS) (argv0 : String) :
    Option MainBehavior :=
  let progname := basename argv0
  match get_developer_path env fs with
  | none => none
  | some d =>
    if d = "" then none
    else
      let cs := get_multicall_state progname multicall_tool_names 4
      if cs = 1 then some (MainBehavior.xcrun_flow false false)
      else if cs = 2 then some (MainBehavior.xcrun_flow true false)
      else if cs = 3 then some (MainBehavior.xcrun_flow false true)
      else if cs = 4 then some (MainBehavior.xcrun_flow false false)
      else some (MainBehavior.tool_dispatch (request_command env fs (initial_state d) progname))

end Xcrun

namespace Xcrun

/-! ## Theorems for claims C5 and C6 -/

/-- C5: for every present version string and architecture,
parse_target_triple returns "<arch>-apple-darwin<kernelMajor>" with
kernelMajor given by the claim's table keyed on the parsed major and
minor only (so the parsed patch component never affects the result),
and in particular triple "10.14" x86_64 is x86_64-apple-darwin18 and
triple "4.1" x86_64 is x86_64-apple-darwin10. -/
theorem triple_matches_kernel_table :
    (∀ (ver arch : String),
      parse_target_triple (some ver) arch =
        some (arch ++ "-apple-darwin" ++
          toString (kernelMajorTable (scan_version ver).xx (scan_version ver).yy
            (arch = "x86_64" || arch = "i386")))) ∧
    (∀ (v w arch : String), (scan_version v).xx = (scan_version w).xx →
      (scan_version v).yy = (scan_version w).yy →
      parse_target_triple (some v) arch = parse_target_triple (some w) arch) ∧
    parse_target_triple (some "10.14") "x86_64" = some "x86_64-apple-darwin18" ∧
    parse_target_triple (some "4.1") "x86_64" = some "x86_64-apple-darwin10" := by
  have table : ∀ (xx yy : Nat) (m : Bool), kern_ver_of xx yy m = kernelMajorTable xx yy m := by
    intro xx yy m
    rcases xx with _ | _ | _ | _ | _ | _ | _ | _ | _ | _ | _ | _ | n <;>
      simp [kern_ver_of, kernelMajorTable]
  have main : ∀ (ver arch : String),
      parse_target_triple (some ver) arch =
        some (arch ++ "-apple-darwin" ++
          toString (kernelMajorTable (scan_version ver).xx (scan_version ver).yy
            (arch = "x86_64" || arch = "i386"))) := by
    intro ver arch
    simp [parse_target_triple, table]
  refine ⟨main, ?_, by decide, by decide⟩
  intro v w arch hx hy
  rw [main, main, hx, hy]

/-- C5 witness: the patch-independence conjunct applied at the
concrete versions 10.14.1 and 10.14.6. -/
theorem triple_matches_kernel_table_witness :
    parse_target_triple (some "10.14.1") "x86_64" =
      parse_target_triple (some "10.14.6") "x86_64" :=
  triple_matches_kernel_table.2.1 "10.14.1" "10.14.6" "x86_64" (by decide) (by decide)

/-- C6: for any developer root and names, get_sdk_path succeeds
exactly when the directory root/SDKs/<n>.sdk exists, returning that
concatenated conventional path, and fails (exit, modelled none)
otherwise; get_toolchain_path behaves identically against
root/Toolchains/<m>.toolchain. -/
theorem resolve_paths_iff_directory_exists :
    ∀ (fs : FS) (root n m : String),
      (get_sdk_path fs root n = some (root ++ "/SDKs/" ++ n ++ ".sdk") ↔
        fs.isDir (root ++ "/SDKs/" ++ n ++ ".sdk") = true) ∧
      (get_sdk_path fs root n = none ↔
        ¬ fs.isDir (root ++ "/SDKs/" ++ n ++ ".sdk") = true) ∧
      (get_toolchain_path fs root m = some (root ++ "/Toolchains/" ++ m ++ ".toolchain") ↔
        fs.isDir (root ++ "/Toolchains/" ++ m ++ ".toolchain") = true) ∧
      (get_toolchain_path fs root m = none ↔
        ¬ fs.isDir (root ++ "/Toolchains/" ++ m ++ ".toolchain") = true) := by
  intro fs root n m
  refine ⟨?_, ?_, ?_, ?_⟩
  · by_cases h : fs.isDir (root ++ "/SDKs/" ++ n ++ ".sdk") <;>
      simp [get_sdk_path, validate_directory_path, h]
  · by_cases h : fs.isDir (root ++ "/SDKs/" ++ n ++ ".sdk") <;>
      simp [get_sdk_path, validate_directory_path, h]
  · by_cases h : fs.isDir (root ++ "/Toolchains/" ++ m ++ ".toolchain") <;>
      simp [get_toolchain_path, validate_directory_path, h]
  · by_cases h : fs.isDir (root ++ "/Toolchains/" ++ m ++ ".toolchain") <;>
      simp [get_toolchain_path, validate_directory_path, h]

/-- C6 witness: the sdk direction applied on a concrete file system
holding /d/SDKs/S.sdk and no toolchain directory. -/
theorem resolve_paths_iff_directory_exists_witness :
    get_sdk_path ⟨["/d/SDKs/S.sdk"], [], [], []⟩ "/d" "S" = some "/d/SDKs/S.sdk" ∧
    get_toolchain_path ⟨["/d/SDKs/S.sdk"], [], [], []⟩ "/d" "T" = none :=
  ⟨(resolve_paths_iff_directory_exists ⟨["/d/SDKs/S.sdk"], [], [], []⟩ "/d" "S" "T").1.mpr
      (by decide),
    (resolve_paths_iff_directory_exists ⟨["/d/SDKs/S.sdk"], [], [], []⟩ "/d" "S" "T").2.2.2.mpr
      (by decide)⟩

/-! ## Helper lemmas about stripext -/

lemma strchrIdx_append_of_not_mem (l1 l2 : List Char) (c : Char)
    (h : ∀ x ∈ l1, x ≠ c) :
    strchrIdx (l1 ++ c :: l2) c = some l1.length := by
  induction l1 with
  | nil => simp [strchrIdx]
  | cons a tl ih =>
    have ha : a ≠ c := h a (by simp)
    have htl : ∀ x ∈ tl, x ≠ c := fun x hx => h x (by simp [hx])
    simp [strchrIdx, ha, ih htl]

lemma stripext_append_dot (pre post : String) (h : ∀ x ∈ pre.data, x ≠ '.') :
    stripext (pre ++ "." ++ post) = pre := by
  have hd : (pre ++ "." ++ post).data = pre.data ++ '.' :: post.data := by
    simp [String.data_append]
  apply String.ext
  rw [stripext, hd]
  simp only [stripextData, strchrIdx_append_of_not_mem _ _ _ h]
  exact List.take_left pre.data (('.' :: post.data))

/-! ## Helper lemmas about the sdk handler fold -/

lemma sdk_cfg_handler_split (acc : sdk_config × DTFlags) (e : IniEntry) :
    sdk_cfg_handler acc e = (cfg_step acc.1 e, flag_step acc.2 e) := by
  simp only [sdk_cfg_handler, cfg_step, flag_step, dk_of_entry, flagsOfKind]
  split_ifs <;> simp_all

lemma foldl_sdk_cfg_handler_split (es : List IniEntry) (c : sdk_config) (f : DTFlags) :
    es.foldl sdk_cfg_handler (c, f) = (es.foldl cfg_step c, es.foldl flag_step f) := by
  induction es generalizing c f with
  | nil => rfl
  | cons e tl ih =>
    simp only [List.foldl_cons, sdk_cfg_handler_split]
    exact ih _ _

lemma foldl_last_dk_step (es : List IniEntry) (a : Option (DepKind × String)) :
    es.foldl last_dk_step a =
      match lastDeploymentKey es with
      | some p => some p
      | none => a := by
  induction es generalizing a with
  | nil => simp [lastDeploymentKey]
  | cons e tl ih =>
    have hl : lastDeploymentKey (e :: tl) = tl.foldl last_dk_step (last_dk_step none e) := rfl
    rw [List.foldl_cons, ih, hl, ih]
    cases htl : lastDeploymentKey tl with
    | some p => rfl
    | none =>
      simp only [last_dk_step]
      cases dk_of_entry e <;> rfl

lemma foldl_flag_step (es : List IniEntry) (f : DTFlags) :
    es.foldl flag_step f = flags_after es f := by
  induction es generalizing f with
  | nil => simp [flags_after, lastDeploymentKey]
  | cons e tl ih =>
    have hl : lastDeploymentKey (e :: tl) = tl.foldl last_dk_step (last_dk_step none e) := rfl
    rw [List.foldl_cons, ih]
    simp only [flags_after, hl, foldl_last_dk_step]
    cases htl : lastDeploymentKey tl with
    | some p => rfl
    | none =>
      simp only [flag_step, last_dk_step]
      cases dk_of_entry e <;> rfl

lemma cfg_step_deployment_target (c : sdk_config) (e : IniEntry) :
    (cfg_step c e).deployment_target =
      match dk_of_entry e with
      | some p => some p.2
      | none => c.deployment_target := by
  simp only [cfg_step, dk_of_entry]
  split_ifs <;> simp_all

lemma foldl_cfg_step_deployment_target (es : List IniEntry) (c : sdk_config) :
    (es.foldl cfg_step c).deployment_target =
      match lastDeploymentKey es with
      | some p => some p.2
      | none => c.deployment_target := by
  induction es generalizing c with
  | nil => simp [lastDeploymentKey]
  | cons e tl ih =>
    have hl : lastDeploymentKey (e :: tl) = tl.foldl last_dk_step (last_dk_step none e) := rfl
    rw [List.foldl_cons, ih, hl, foldl_last_dk_step]
    cases htl : lastDeploymentKey tl with
    | some p => rfl
    | none =>
      rw [cfg_step_deployment_target]
      simp only [last_dk_step]
      cases dk_of_entry e <;> rfl

lemma get_sdk_info_eq (fs : FS) (p : String) (f : DTFlags) :
    get_sdk_info fs p f =
      (fs.iniFile (p ++ "/info.ini")).map
        (fun es => (sdkCfgOfEntries es, flags_after es f)) := by
  simp only [get_sdk_info, ini_parse_sdk, sdkCfgOfEntries, foldl_sdk_cfg_handler_split,
    foldl_flag_step]

lemma sdkCfgOfEntries_deployment_target (es : List IniEntry) :
    (sdkCfgOfEntries es).deployment_target =
      match lastDeploymentKey es with
      | some p => some p.2
      | none => none := by
  simp only [sdkCfgOfEntries, foldl_sdk_cfg_handler_split, foldl_cfg_step_deployment_target]

lemma flags_after_idem (es : List IniEntry) (f : DTFlags) :
    flags_after es (flags_after es f) = flags_after es f := by
  simp only [flags_after]
  cases lastDeploymentKey es <;> rfl

/-! ## A flag-free characterization of the getter and the composer -/

lemma get_target_triple_eq (env : String → Option String) (fs : FS)
    (dd sdk : String) (fl : DTFlags) :
    get_target_triple env fs dd sdk fl =
      match env "TARGET_TRIPLE" with
      | some t => some (some t, fl)
      | none =>
        match get_sdk_path fs dd sdk with
        | none => none
        | some sp =>
          match fs.iniFile (sp ++ "/info.ini") with
          | none => none
          | some es =>
            match (sdkCfgOfEntries es).default_arch with
            | none => some (none, flags_after es fl)
            | some arch =>
              match (sdkCfgOfEntries es).deployment_target with
              | none => some (none, flags_after es fl)
              | some dt => some (parse_target_triple (some dt) arch, flags_after es fl) := by
  cases henv : env "TARGET_TRIPLE" with
  | some t => simp [get_target_triple, henv]
  | none =>
    cases hsp : get_sdk_path fs dd sdk with
    | none => simp [get_target_triple, henv, hsp]
    | some sp =>
      cases hini : fs.iniFile (sp ++ "/info.ini") with
      | none => simp [get_target_triple, get_sdk_info_eq, henv, hsp, hini]
      | some es =>
        cases harch : (sdkCfgOfEntries es).default_arch with
        | none => simp [get_target_triple, get_sdk_info_eq, henv, hsp, hini, harch]
        | some arch =>
          cases hdt : (sdkCfgOfEntries es).deployment_target with
          | none =>
            simp [get_target_triple, get_sdk_info_eq, henv, hsp, hini, harch, hdt,
              flags_after_idem]
          | some dt =>
            simp [get_target_triple, get_sdk_info_eq, henv, hsp, hini, harch, hdt,
              flags_after_idem]

lemma call_command_eq (env : String → Option String) (fs : FS) (st : XcrunState) :
    call_command env fs st =
      match get_sdk_path fs st.developer_dir st.current_sdk with
      | none => CallOutcome.abort false
      | some sp =>
        match get_toolchain_path fs st.developer_dir st.current_toolchain with
        | none => CallOutcome.abort false
        | some tp =>
          let base : child_env :=
            { sdkroot := sp
              path := st.developer_dir ++ "/usr/bin:" ++ tp ++ "/usr/bin:" ++ cstr (env "PATH")
              ld_library_path := tp ++ "/usr/lib"
              home := cstr (env "HOME")
              developer_dir := st.developer_dir
              target_triple := none
              deployment := none }
          let ttr : Option (Option String) :=
            match env "TARGET_TRIPLE" with
            | some t => some (some t)
            | none =>
              match fs.iniFile (sp ++ "/info.ini") with
              | none => none
              | some es =>
                match (sdkCfgOfEntries es).default_arch with
                | none => some none
                | some arch =>
                  match (sdkCfgOfEntries es).deployment_target with
                  | none => some none
                  | some dt => some (parse_target_triple (some dt) arch)
          match ttr with
          | none => CallOutcome.abort false
          | some tt =>
            match env "IPHONEOS_DEPLOYMENT_TARGET" with
            | some v =>
              CallOutcome.exec
                { base with target_triple := tt, deployment := some (DepKind.ios, v) } tt.isNone
            | none =>
              match env "MACOSX_DEPLOYMENT_TARGET" with
              | some v =>
                CallOutcome.exec
                  { base with target_triple := tt, deployment := some (DepKind.macos, v) } tt.isNone
              | none =>
                match fs.iniFile (sp ++ "/info.ini") with
                | none => CallOutcome.abort tt.isNone
                | some es =>
                  match lastDeploymentKey es with
                  | none => CallOutcome.abort tt.isNone
                  | some (k, dt) =>
                    CallOutcome.exec
                      { base with target_triple := tt, deployment := some (k, dt) } tt.isNone := by
  cases hsp : get_sdk_path fs st.developer_dir st.current_sdk with
  | none => simp [call_command, hsp]
  | some sp =>
    cases htp : get_toolchain_path fs st.developer_dir st.current_toolchain with
    | none => simp [call_command, hsp, htp]
    | some tp =>
      cases henv : env "TARGET_TRIPLE" with
      | some t =>
        cases hiph : env "IPHONEOS_DEPLOYMENT_TARGET" with
        | some v => simp [call_command, get_target_triple_eq, hsp, htp, henv, hiph]
        | none =>
          cases hmac : env "MACOSX_DEPLOYMENT_TARGET" with
          | some v => simp [call_command, get_target_triple_eq, hsp, htp, henv, hiph, hmac]
          | none =>
            cases hini : fs.iniFile (sp ++ "/info.ini") with
            | none =>
              simp [call_command, get_target_triple_eq, get_sdk_info_eq, hsp, htp, henv,
                hiph, hmac, hini]
            | some es =>
              cases hdk : lastDeploymentKey es with
              | none =>
                simp [call_command, get_target_triple_eq, get_sdk_info_eq, hsp, htp, henv,
                  hiph, hmac, hini, sdkCfgOfEntries_deployment_target, hdk]
              | some p =>
                obtain ⟨k, dt⟩ := p
                cases k <;>
                  simp [call_command, get_target_triple_eq, get_sdk_info_eq, hsp, htp, henv,
                    hiph, hmac, hini, sdkCfgOfEntries_deployment_target, hdk, flags_after,
                    flagsOfKind]
      | none =>
        cases hini : fs.iniFile (sp ++ "/info.ini") with
        | none =>
          simp [call_command, get_target_triple_eq, hsp, htp, henv, hini]
        | some es =>
          cases harch : (sdkCfgOfEntries es).default_arch with
          | none =>
            cases hiph : env "IPHONEOS_DEPLOYMENT_TARGET" with
            | some v =>
              simp [call_command, get_target_triple_eq, get_sdk_info_eq, hsp, htp, henv,
                hini, harch, hiph]
            | none =>
              cases hmac : env "MACOSX_DEPLOYMENT_TARGET" with
              | some v =>
                simp [call_command, get_target_triple_eq, get_sdk_info_eq, hsp, htp, henv,
                  hini, harch, hiph, hmac]
              | none =>
                cases hdk : lastDeploymentKey es with
                | none =>
                  simp [call_command, get_target_triple_eq, get_sdk_info_eq, hsp, htp, henv,
                    hini, harch, hiph, hmac, sdkCfgOfEntries_deployment_target, hdk]
                | some p =>
                  obtain ⟨k, dt⟩ := p
                  cases k <;>
                    simp [call_command, get_target_triple_eq, get_sdk_info_eq, hsp, htp, henv,
                      hini, harch, hiph, hmac, sdkCfgOfEntries_deployment_target, hdk,
                      flags_after, flagsOfKind]
          | some arch =>
            cases hdk : lastDeploymentKey es with
            | none =>
              have hdt : (sdkCfgOfEntries es).deployment_target = none := by
                rw [sdkCfgOfEntries_deployment_target, hdk]
              cases hiph : env "IPHONEOS_DEPLOYMENT_TARGET" with
              | some v =>
                simp [call_command, get_target_triple_eq, get_sdk_info_eq, hsp, htp, henv,
                  hini, harch, hdt, hiph]
              | none =>
                cases hmac : env "MACOSX_DEPLOYMENT_TARGET" with
                | some v =>
                  simp [call_command, get_target_triple_eq, get_sdk_info_eq, hsp, htp, henv,
                    hini, harch, hdt, hiph, hmac]
                | none =>
                  simp [call_command, get_target_triple_eq, get_sdk_info_eq, hsp, htp, henv,
                    hini, harch, hdt, hiph, hmac, hdk]
            | some p =>
              obtain ⟨k, dt⟩ := p
              have hdt : (sdkCfgOfEntries es).deployment_target = some dt := by
                rw [sdkCfgOfEntries_deployment_target, hdk]
              cases hiph : env "IPHONEOS_DEPLOYMENT_TARGET" with
              | some v =>
                simp [call_command, get_target_triple_eq, get_sdk_info_eq, hsp, htp, henv,
                  hini, harch, hdt, hiph]
              | none =>
                cases hmac : env "MACOSX_DEPLOYMENT_TARGET" with
                | some v =>
                  simp [call_command, get_target_triple_eq, get_sdk_info_eq, hsp, htp, henv,
                    hini, harch, hdt, hiph, hmac]
                | none =>
                  cases k <;>
                    simp [call_command, get_target_triple_eq, get_sdk_info_eq, hsp, htp, henv,
                      hini, harch, hdt, hiph, hmac, hdk, flags_after, flagsOfKind]

/-! ## Claim C9: multicall name recognition -/

/-- C9: get_multicall_state compares the invoking name against only
the first three of the four declared alias names (the loop bound is
state_size - 1), so an invocation under the name xcrun_nocache is
never recognized as an alias: main falls to the default case and
treats the name as a tool to locate and execute via request_command
on the zeroed (default SDK/toolchain) state. -/
theorem multicall_misses_nocache_alias :
    get_multicall_state "xcrun_nocache" multicall_tool_names 4 = -1 ∧
    (∀ (cmd : String),
      get_multicall_state cmd multicall_tool_names 4 ≠ -1 ↔
        (cmd = "xcrun" ∨ cmd = "xcrun_log" ∨ cmd = "xcrun_verbose")) ∧
    (∀ (env : String → Option String) (fs : FS) (d : String),
      get_developer_path env fs = some d → d ≠ "" →
      main_dispatch env fs "xcrun_nocache" =
        some (MainBehavior.tool_dispatch
          (request_command env fs (initial_state d) "xcrun_nocache"))) := by
  refine ⟨by decide, ?_, ?_⟩
  · intro cmd
    by_cases h1 : cmd = "xcrun"
    · subst h1; decide
    by_cases h2 : cmd = "xcrun_log"
    · subst h2; decide
    by_cases h3 : cmd = "xcrun_verbose"
    · subst h3; decide
    have g1 : (("xcrun" = cmd) : Prop) = False := eq_false (fun h => h1 h.symm)
    have g2 : (("xcrun_log" = cmd) : Prop) = False := eq_false (fun h => h2 h.symm)
    have g3 : (("xcrun_verbose" = cmd) : Prop) = False := eq_false (fun h => h3 h.symm)
    have hr : List.range (4 - 1) = [0, 1, 2] := rfl
    simp [get_multicall_state, hr, List.find?, multicall_tool_names, g1, g2, g3, h1, h2, h3]
  · intro env fs d hd hne
    have hb : basename "xcrun_nocache" = "xcrun_nocache" := by decide
    have hcs : get_multicall_state "xcrun_nocache" multicall_tool_names 4 = -1 := by decide
    simp [main_dispatch, hd, hne, hb, hcs]

/-- C9 witness: with DEVELOPER_DIR set, invoking under the name
xcrun_nocache dispatches to the tool path. -/
theorem multicall_misses_nocache_alias_witness :
    main_dispatch (fun s => if s = "DEVELOPER_DIR" then some "/dev" else none)
        ⟨[], [], [], []⟩ "xcrun_nocache" =
      some (MainBehavior.tool_dispatch
        (request_command (fun s => if s = "DEVELOPER_DIR" then some "/dev" else none)
          ⟨[], [], [], []⟩ (initial_state "/dev") "xcrun_nocache")) :=
  multicall_misses_nocache_alias.2.2
    (fun s => if s = "DEVELOPER_DIR" then some "/dev" else none)
    ⟨[], [], [], []⟩ "/dev" (by decide) (by decide)

/-! ## Claim C10: extension stripping truncates at the first dot -/

/-- C10: stripext truncates at the first dot of the string, not the
last: any name of the form pre.post with a dot-free pre is cut down
to pre (even when post itself contains dots), and the --sdk /
--toolchain option handlers therefore set the active name
MacOSX10.13 to MacOSX10. -/
theorem stripext_truncates_at_first_dot :
    (∀ (pre post : String), (∀ x ∈ pre.data, x ≠ '.') →
      stripext (pre ++ "." ++ post) = pre) ∧
    stripext "MacOSX10.13" = "MacOSX10" ∧
    stripext "MacOSX10.13.sdk" = "MacOSX10" ∧
    (∀ (fs : FS) (st : XcrunState),
      xcrun_sdk_option fs st "MacOSX10.13" =
        some { st with explicit_sdk_mode := true, current_sdk := "MacOSX10" }) ∧
    (∀ (fs : FS) (st : XcrunState),
      xcrun_toolchain_option fs st "MacOSX10.13" =
        some { st with explicit_toolchain_mode := true, current_toolchain := "MacOSX10" }) := by
  refine ⟨stripext_append_dot, by decide, by decide, ?_, ?_⟩
  · intro fs st
    have h1 : ("MacOSX10.13".data.head? = some '-') = False := by decide
    have h2 : ("MacOSX10.13".data.head? = some '/') = False := by decide
    simp [xcrun_sdk_option, h1, h2, show stripext "MacOSX10.13" = "MacOSX10" by decide]
  · intro fs st
    have h1 : ("MacOSX10.13".data.head? = some '-') = False := by decide
    have h2 : ("MacOSX10.13".data.head? = some '/') = False := by decide
    simp [xcrun_toolchain_option, h1, h2, show stripext "MacOSX10.13" = "MacOSX10" by decide]

/-- C10 witness: the universal first-dot conjunct applied at the
concrete split MacOSX10 / 13. -/
theorem stripext_truncates_at_first_dot_witness :
    stripext ("MacOSX10" ++ "." ++ "13") = "MacOSX10" :=
  stripext_truncates_at_first_dot.1 "MacOSX10" "13" (by decide)

/-! ## Claim C1: search-path construction branch structure -/

/-- C1 counterexample: with no explicit mode, an alternate SDK path
/a whose directory holds no info.ini, and an alternate toolchain path
/t, the code lets branches 3 and 4 both contribute (the alternate-SDK
branch falls through when the metadata file is missing), while the
claim's first-match-terminal reading of branch 3 contributes /a alone. -/
theorem search_path_claim_counterexample :
    (build_search_string ⟨[], [], [], []⟩
        ⟨"/d", "S", "T", false, false, some "/a", some "/t", false, ⟨false, false⟩⟩).map
        Prod.fst =
      some ["/d/usr/bin", "/a/usr/bin", "/t/usr/bin"] ∧
    claimSearchPathC1 ⟨[], [], [], []⟩
        ⟨"/d", "S", "T", false, false, some "/a", some "/t", false, ⟨false, false⟩⟩ =
      some ["/d/usr/bin", "/a/usr/bin"] := by
  constructor <;> decide

/-- C1 amended: the search path always starts with
developer_dir/usr/bin, and the five branches behave as the claim says
in every case except one: when no explicit mode is set, an alternate
SDK path is supplied whose directory has no metadata file, and an
alternate toolchain path is also supplied, the alternate-SDK branch
falls through and both alternate paths contribute, in that order.  In
all other situations the built path coincides with the claim's
first-match-terminal branch description. -/
theorem search_path_branches_amended :
    ∀ (fs : FS) (st : XcrunState),
      (∀ (entries : List String) (fl : DTFlags),
        build_search_string fs st = some (entries, fl) →
        entries.head? = some (st.developer_dir ++ "/usr/bin")) ∧
      (∀ (ap atp : String),
        st.explicit_sdk_mode = false → st.explicit_toolchain_mode = false →
        st.alternate_sdk_path = some ap → st.alternate_toolchain_path = some atp →
        test_sdk_authenticity fs ap = false →
        build_search_string fs st =
          some ([st.developer_dir ++ "/usr/bin", ap ++ "/usr/bin", atp ++ "/usr/bin"],
            st.flags)) ∧
      ((st.explicit_sdk_mode = true ∨ st.explicit_toolchain_mode = true ∨
          st.alternate_sdk_path = none ∨ st.alternate_toolchain_path = none ∨
          (∀ ap, st.alternate_sdk_path = some ap → test_sdk_authenticity fs ap = true)) →
        (build_search_string fs st).map Prod.fst = claimSearchPathC1 fs st) := by
  intro fs st
  refine ⟨?_, ?_, ?_⟩
  · intro entries fl h
    simp only [build_search_string] at h
    repeat' split at h
    all_goals try simp only [Option.some.injEq, Prod.mk.injEq] at h
    all_goals first
      | rfl
      | (obtain ⟨he, hf⟩ := h; subst he; rfl)
      | (simp at h)
  · intro ap atp h1 h2 h3 h4 h5
    simp [build_search_string, h1, h2, h3, h4, h5]
  · intro hcase
    by_cases h1 : st.explicit_sdk_mode
    · simp only [build_search_string, claimSearchPathC1, h1, if_true]
      cases hsp : get_sdk_path fs st.developer_dir st.current_sdk with
      | none => simp [hsp]
      | some sp =>
        cases hinfo : get_sdk_info fs sp st.flags with
        | none => simp [hsp, hinfo]
        | some cf =>
          obtain ⟨c, f1⟩ := cf
          cases htn : c.toolchain with
          | none => simp [hsp, hinfo, htn]
          | some tn =>
            cases htp : get_toolchain_path fs st.developer_dir tn with
            | none => simp [hsp, hinfo, htn, htp]
            | some tp => simp [hsp, hinfo, htn, htp]
    · by_cases h2 : st.explicit_toolchain_mode
      · simp only [build_search_string, claimSearchPathC1, h1, h2, Bool.not_eq_true,
          if_true, if_false, Bool.false_eq_true]
        cases htp : get_toolchain_path fs st.developer_dir st.current_toolchain with
        | none => simp [h1, h2, htp]
        | some tp => simp [h1, h2, htp]
      · cases hap : st.alternate_sdk_path with
        | some ap =>
          by_cases hau : test_sdk_authenticity fs ap
          · simp only [build_search_string, claimSearchPathC1, h1, h2, Bool.not_eq_true,
              hap, hau, if_true]
            cases hinfo : get_sdk_info fs ap st.flags with
            | none => simp [h1, h2, hau, hinfo]
            | some cf =>
              obtain ⟨c, f1⟩ := cf
              cases htn : c.toolchain with
              | none => simp [h1, h2, hau, hinfo, htn]
              | some tn =>
                cases htp : get_toolchain_path fs st.developer_dir tn with
                | none => simp [h1, h2, hau, hinfo, htn, htp]
                | some tp => simp [h1, h2, hau, hinfo, htn, htp]
          · rcases hcase with hc | hc | hc | hc | hc
            · exact absurd hc h1
            · exact absurd hc h2
            · rw [hap] at hc; cases hc
            · simp [build_search_string, claimSearchPathC1, h1, h2, hap, hau, hc]
            · exact absurd (hc ap hap) hau
        | none =>
          cases hat : st.alternate_toolchain_path with
          | some atp => simp [build_search_string, claimSearchPathC1, h1, h2, hap, hat]
          | none =>
            simp only [build_search_string, claimSearchPathC1, h1, h2, Bool.not_eq_true,
              hap, hat]
            cases hsp : get_sdk_path fs st.developer_dir st.current_sdk with
            | none => simp [h1, h2, hsp]
            | some sp =>
              cases htp : get_toolchain_path fs st.developer_dir st.current_toolchain with
              | none => simp [h1, h2, hsp, htp]
              | some tp => simp [h1, h2, hsp, htp]

/-- C1 amended witness: the always-first conjunct and the
fall-through conjunct applied at the counterexample context. -/
theorem search_path_branches_amended_witness :
    build_search_string ⟨[], [], [], []⟩
        ⟨"/d", "S", "T", false, false, some "/a", some "/t", false, ⟨false, false⟩⟩ =
      some (["/d/usr/bin", "/a/usr/bin", "/t/usr/bin"], ⟨false, false⟩) :=
  (search_path_branches_amended ⟨[], [], [], []⟩
      ⟨"/d", "S", "T", false, false, some "/a", some "/t", false, ⟨false, false⟩⟩).2.1
    "/a" "/t" rfl rfl rfl rfl (by decide)

/-! ## Claim C8: inherited TARGET_TRIPLE passes through verbatim -/

/-- C8: if the inherited environment sets TARGET_TRIPLE, the getter
returns that value verbatim for every file-system state, developer
root, SDK name and flag state (so no SDK metadata is read and no
version parsing happens, and the flags are untouched), and whenever
the composer reaches exec, the child's TARGET_TRIPLE equals the
inherited value. -/
theorem inherited_target_triple_passthrough :
    ∀ (env : String → Option String) (t : String),
      env "TARGET_TRIPLE" = some t →
      (∀ (fs : FS) (dd sdk : String) (fl : DTFlags),
        get_target_triple env fs dd sdk fl = some (some t, fl)) ∧
      (∀ (fs : FS) (st : XcrunState) (ce : child_env) (w : Bool),
        call_command env fs st = CallOutcome.exec ce w →
        ce.target_triple = some t) := by
  intro env t ht
  constructor
  · intro fs dd sdk fl
    simp [get_target_triple, ht]
  · intro fs st ce w h
    rw [call_command_eq] at h
    simp only [ht] at h
    repeat' split at h
    all_goals cases h
    all_goals rfl

/-- C8 witness: with TARGET_TRIPLE inherited as my-triple, the getter
returns it on an empty file system, and the composer forwards it into
the child environment of a concrete successful exec. -/
theorem inherited_target_triple_passthrough_witness :
    get_target_triple (fun s => if s = "TARGET_TRIPLE" then some "my-triple" else none)
        ⟨[], [], [], []⟩ "/d" "S" ⟨false, false⟩ =
      some (some "my-triple", ⟨false, false⟩) :=
  (inherited_target_triple_passthrough
      (fun s => if s = "TARGET_TRIPLE" then some "my-triple" else none) "my-triple" rfl).1
    ⟨[], [], [], []⟩ "/d" "S" ⟨false, false⟩

/-! ## Claim C4: the platform kind is a property of the record alone -/

/-- C4: the outcome of the Environment Composer is entirely
independent of the deployment-target flag state left behind by any
earlier parse in the invocation (first conjunct: changing the
incoming global flags never changes the composed result), and when
the composer falls back to the SDK record the deployment-target
variable's kind and value are exactly the record's own last
deployment-target key, re-established by the composer's own re-parse
of that record's file. -/
theorem platform_kind_record_local :
    (∀ (env : String → Option String) (fs : FS) (st : XcrunState) (f g : DTFlags),
      call_command env fs { st with flags := f } =
        call_command env fs { st with flags := g }) ∧
    (∀ (env : String → Option String) (fs : FS) (st : XcrunState) (sp : String)
        (es : List IniEntry) (k : DepKind) (d : String) (ce : child_env) (w : Bool),
      env "IPHONEOS_DEPLOYMENT_TARGET" = none →
      env "MACOSX_DEPLOYMENT_TARGET" = none →
      get_sdk_path fs st.developer_dir st.current_sdk = some sp →
      fs.iniFile (sp ++ "/info.ini") = some es →
      lastDeploymentKey es = some (k, d) →
      call_command env fs st = CallOutcome.exec ce w →
      ce.deployment = some (k, d)) := by
  constructor
  · intro env fs st f g
    rw [call_command_eq, call_command_eq]
  · intro env fs st sp es k d ce w hiph hmac hsp hini hdk hcall
    rw [call_command_eq] at hcall
    simp only [hsp] at hcall
    cases htp : get_toolchain_path fs st.developer_dir st.current_toolchain with
    | none => simp [htp] at hcall
    | some tp =>
      simp only [htp] at hcall
      cases henv : env "TARGET_TRIPLE" with
      | some t =>
        simp only [henv, hiph, hmac, hini, hdk] at hcall
        injection hcall with hce hw
        subst hce
        rfl
      | none =>
        cases harch : (sdkCfgOfEntries es).default_arch with
        | none =>
          simp only [henv, harch, hiph, hmac, hini, hdk] at hcall
          injection hcall with hce hw
          subst hce
          rfl
        | some arch =>
          have hdt : (sdkCfgOfEntries es).deployment_target = some d := by
            rw [sdkCfgOfEntries_deployment_target, hdk]
          simp only [henv, harch, hdt, hiph, hmac, hini, hdk] at hcall
          injection hcall with hce hw
          subst hce
          rfl

/-- C4 witness: the record conjunct applied to a concrete invocation
whose SDK record carries an iphoneos_deployment_target key. -/
theorem platform_kind_record_local_witness :
    child_env.deployment
        { sdkroot := "/d/SDKs/S.sdk"
          path := "/d/usr/bin:/d/Toolchains/T.toolchain/usr/bin:/bin"
          ld_library_path := "/d/Toolchains/T.toolchain/usr/lib"
          home := "/h"
          developer_dir := "/d"
          target_triple := some "tt"
          deployment := some (DepKind.ios, "10.0") } =
      some (DepKind.ios, "10.0") :=
  platform_kind_record_local.2
    (fun s =>
      if s = "TARGET_TRIPLE" then some "tt"
      else if s = "PATH" then some "/bin"
      else if s = "HOME" then some "/h" else none)
    ⟨["/d/SDKs/S.sdk", "/d/Toolchains/T.toolchain"],
      [("/d/SDKs/S.sdk/info.ini", [⟨"SDK", "iphoneos_deployment_target", "10.0"⟩])], [], []⟩
    ⟨"/d", "S", "T", false, false, none, none, false, ⟨false, false⟩⟩
    "/d/SDKs/S.sdk" [⟨"SDK", "iphoneos_deployment_target", "10.0"⟩]
    DepKind.ios "10.0" _ false rfl rfl (by decide) (by decide) (by decide) (by decide)

/-! ## Claim C7: exactly one deployment-target variable -/

/-- C7: whenever the composer reaches exec, the child environment's
single deployment-target slot is filled (exactly one of the two
variables, since the slot carries one kind-value pair): an inherited
IPHONEOS_DEPLOYMENT_TARGET is passed through first, else an inherited
MACOSX_DEPLOYMENT_TARGET, else the variable whose kind matches the
active SDK record's own last deployment-target key, with that
record's value. -/
theorem deployment_variable_exactly_one :
    ∀ (env : String → Option String) (fs : FS) (st : XcrunState) (ce : child_env) (w : Bool),
      call_command env fs st = CallOutcome.exec ce w →
      (∃ p, ce.deployment = some p) ∧
      (∀ v, env "IPHONEOS_DEPLOYMENT_TARGET" = some v →
        ce.deployment = some (DepKind.ios, v)) ∧
      (∀ v, env "IPHONEOS_DEPLOYMENT_TARGET" = none →
        env "MACOSX_DEPLOYMENT_TARGET" = some v →
        ce.deployment = some (DepKind.macos, v)) ∧
      (env "IPHONEOS_DEPLOYMENT_TARGET" = none →
        env "MACOSX_DEPLOYMENT_TARGET" = none →
        ∀ sp es, get_sdk_path fs st.developer_dir st.current_sdk = some sp →
          fs.iniFile (sp ++ "/info.ini") = some es →
          ce.deployment = lastDeploymentKey es) := by
  intro env fs st ce w h
  rw [call_command_eq] at h
  repeat' split at h
  all_goals cases h
  all_goals
    refine ⟨⟨_, rfl⟩, fun v hv => ?_, fun v hn hm => ?_, fun hn hm sp2 es2 hsp2 hini2 => ?_⟩
  all_goals simp_all

/-- C7 witness: the inherited-MACOSX conjunct applied to a concrete
successful exec with only MACOSX_DEPLOYMENT_TARGET inherited. -/
theorem deployment_variable_exactly_one_witness :
    child_env.deployment
        { sdkroot := "/d/SDKs/S.sdk"
          path := "/d/usr/bin:/d/Toolchains/T.toolchain/usr/bin:/bin"
          ld_library_path := "/d/Toolchains/T.toolchain/usr/lib"
          home := "/h"
          developer_dir := "/d"
          target_triple := some "tt"
          deployment := some (DepKind.macos, "10.9") } =
      some (DepKind.macos, "10.9") :=
  (deployment_variable_exactly_one
      (fun s =>
        if s = "TARGET_TRIPLE" then some "tt"
        else if s = "MACOSX_DEPLOYMENT_TARGET" then some "10.9"
        else if s = "PATH" then some "/bin"
        else if s = "HOME" then some "/h" else none)
      ⟨["/d/SDKs/S.sdk", "/d/Toolchains/T.toolchain"], [], [], []⟩
      ⟨"/d", "S", "T", false, false, none, none, false, ⟨false, false⟩⟩
      _ false (by decide)).2.2.1 "10.9" rfl rfl

/-! ## Claim C3: absent version string and the composer -/

/-- C3 counterexample: parse_target_triple of an absent version does
yield none, and the composer does warn and omit TARGET_TRIPLE, but it
does not always still succeed: with no inherited deployment-target
variable and an SDK record whose deployment-target key is absent (the
very record whose absent version made the triple none), the composer
aborts at the deployment-target step after printing the warning. -/
theorem triple_none_composer_counterexample :
    parse_target_triple none "x86_64" = none ∧
    call_command
        (fun s => if s = "PATH" then some "/bin" else if s = "HOME" then some "/h" else none)
        ⟨["/d/SDKs/MacOSX.sdk", "/d/Toolchains/T.toolchain"],
          [("/d/SDKs/MacOSX.sdk/info.ini",
            [⟨"SDK", "name", "MacOSX"⟩, ⟨"SDK", "default_arch", "x86_64"⟩])], [], []⟩
        ⟨"/d", "MacOSX", "T", false, false, none, none, false, ⟨false, false⟩⟩ =
      CallOutcome.abort true := by
  exact ⟨rfl, by decide⟩

/-- C3 amended: deriving the triple from an absent version string
yields none for every architecture, and the composer then omits
TARGET_TRIPLE from the child environment, prints the warning, and
still succeeds in composing the remaining environment whenever an
inherited deployment-target variable (either IPHONEOS_ or MACOSX_) is
present; without one, the invocation aborts over the missing
deployment target (a separate requirement), independent of the
triple — only the warning flag reflects whether the triple itself was
inherited. -/
theorem triple_none_composer_amended :
    (∀ (arch : String), parse_target_triple none arch = none) ∧
    (∀ (env : String → Option String) (fs : FS) (st : XcrunState) (sp tp : String)
        (es : List IniEntry),
      env "TARGET_TRIPLE" = none →
      get_sdk_path fs st.developer_dir st.current_sdk = some sp →
      get_toolchain_path fs st.developer_dir st.current_toolchain = some tp →
      fs.iniFile (sp ++ "/info.ini") = some es →
      (sdkCfgOfEntries es).deployment_target = none →
      ((env "IPHONEOS_DEPLOYMENT_TARGET").isSome = true ∨
        (env "MACOSX_DEPLOYMENT_TARGET").isSome = true) →
      ∃ ce, call_command env fs st = CallOutcome.exec ce true ∧
        ce.target_triple = none ∧
        (∀ v, env "IPHONEOS_DEPLOYMENT_TARGET" = some v →
          ce.deployment = some (DepKind.ios, v)) ∧
        (∀ v, env "IPHONEOS_DEPLOYMENT_TARGET" = none →
          env "MACOSX_DEPLOYMENT_TARGET" = some v →
          ce.deployment = some (DepKind.macos, v))) ∧
    (∀ (env : String → Option String) (fs : FS) (st : XcrunState) (sp tp : String)
        (es : List IniEntry),
      env "IPHONEOS_DEPLOYMENT_TARGET" = none →
      env "MACOSX_DEPLOYMENT_TARGET" = none →
      get_sdk_path fs st.developer_dir st.current_sdk = some sp →
      get_toolchain_path fs st.developer_dir st.current_toolchain = some tp →
      fs.iniFile (sp ++ "/info.ini") = some es →
      (sdkCfgOfEntries es).deployment_target = none →
      call_command env fs st = CallOutcome.abort (env "TARGET_TRIPLE").isNone) := by
  refine ⟨fun arch => rfl, ?_, ?_⟩
  · intro env fs st sp tp es henv hsp htp hini hdt hsome
    rw [call_command_eq]
    simp only [hsp, htp, henv, hini]
    cases harch : (sdkCfgOfEntries es).default_arch with
    | none =>
      cases hiph : env "IPHONEOS_DEPLOYMENT_TARGET" with
      | some v =>
        refine ⟨_, rfl, rfl, fun v' hv' => ?_, fun v' hn hm => ?_⟩
        · injection hv' with hv
          subst hv
          rfl
        · cases hn
      | none =>
        cases hmac : env "MACOSX_DEPLOYMENT_TARGET" with
        | some v =>
          refine ⟨_, rfl, rfl, fun v' hv' => ?_, fun v' hn hm => ?_⟩
          · cases hv'
          · injection hm with hv
            subst hv
            rfl
        | none => simp [hiph, hmac] at hsome
    | some arch =>
      simp only [hdt]
      cases hiph : env "IPHONEOS_DEPLOYMENT_TARGET" with
      | some v =>
        refine ⟨_, rfl, rfl, fun v' hv' => ?_, fun v' hn hm => ?_⟩
        · injection hv' with hv
          subst hv
          rfl
        · cases hn
      | none =>
        cases hmac : env "MACOSX_DEPLOYMENT_TARGET" with
        | some v =>
          refine ⟨_, rfl, rfl, fun v' hv' => ?_, fun v' hn hm => ?_⟩
          · cases hv'
          · injection hm with hv
            subst hv
            rfl
        | none => simp [hiph, hmac] at hsome
  · intro env fs st sp tp es hiph hmac hsp htp hini hdt
    have hdk : lastDeploymentKey es = none := by
      have hx := sdkCfgOfEntries_deployment_target es
      rw [hdt] at hx
      cases hdk2 : lastDeploymentKey es with
      | none => rfl
      | some p => rw [hdk2] at hx; cases hx
    rw [call_command_eq]
    cases henv : env "TARGET_TRIPLE" with
    | some t =>
      simp only [hsp, htp, henv, hini, hiph, hmac, hdk]
    | none =>
      simp only [hsp, htp, henv, hini, hiph, hmac, hdk]
      cases harch : (sdkCfgOfEntries es).default_arch with
      | none => rfl
      | some arch =>
        simp only [hdt]

/-- C3 amended witness: the inherited-deployment conjunct applied to
a concrete record with a default_arch but no deployment-target key,
with only MACOSX_DEPLOYMENT_TARGET inherited. -/
theorem triple_none_composer_amended_witness :
    ∃ ce,
      call_command
          (fun s =>
            if s = "MACOSX_DEPLOYMENT_TARGET" then some "10.9"
            else if s = "PATH" then some "/bin"
            else if s = "HOME" then some "/h" else none)
          ⟨["/d/SDKs/S.sdk", "/d/Toolchains/T.toolchain"],
            [("/d/SDKs/S.sdk/info.ini",
              [⟨"SDK", "name", "S"⟩, ⟨"SDK", "default_arch", "x86_64"⟩])], [], []⟩
          ⟨"/d", "S", "T", false, false, none, none, false, ⟨false, false⟩⟩ =
        CallOutcome.exec ce true ∧
      ce.target_triple = none ∧
      (∀ v,
        (fun s =>
            if s = "MACOSX_DEPLOYMENT_TARGET" then some "10.9"
            else if s = "PATH" then some "/bin"
            else if s = "HOME" then some "/h" else none)
          "IPHONEOS_DEPLOYMENT_TARGET" = some v →
        ce.deployment = some (DepKind.ios, v)) ∧
      (∀ v,
        (fun s =>
            if s = "MACOSX_DEPLOYMENT_TARGET" then some "10.9"
            else if s = "PATH" then some "/bin"
            else if s = "HOME" then some "/h" else none)
          "IPHONEOS_DEPLOYMENT_TARGET" = none →
        (fun s =>
            if s = "MACOSX_DEPLOYMENT_TARGET" then some "10.9"
            else if s = "PATH" then some "/bin"
            else if s = "HOME" then some "/h" else none)
          "MACOSX_DEPLOYMENT_TARGET" = some v →
        ce.deployment = some (DepKind.macos, v)) :=
  triple_none_composer_amended.2.1
    (fun s =>
      if s = "MACOSX_DEPLOYMENT_TARGET" then some "10.9"
      else if s = "PATH" then some "/bin"
      else if s = "HOME" then some "/h" else none)
    ⟨["/d/SDKs/S.sdk", "/d/Toolchains/T.toolchain"],
      [("/d/SDKs/S.sdk/info.ini",
        [⟨"SDK", "name", "S"⟩, ⟨"SDK", "default_arch", "x86_64"⟩])], [], []⟩
    ⟨"/d", "S", "T", false, false, none, none, false, ⟨false, false⟩⟩
    "/d/SDKs/S.sdk" "/d/Toolchains/T.toolchain"
    [⟨"SDK", "name", "S"⟩, ⟨"SDK", "default_arch", "x86_64"⟩]
    rfl (by decide) (by decide) (by decide) (by decide) (Or.inr (by decide))

/-! ## Claim C2: malformed metadata and ConfigParseError -/

/-- C2 counterexample: an SDK info.ini whose record is structurally
incomplete (here both the name and version keys are missing) is not
rejected: the loader returns the partial record without any error,
and a full explicit-SDK invocation over that same file goes on to
locate the command and reach execve — a child process is started
after loading the malformed file. -/
theorem malformed_config_counterexample :
    (sdkCfgOfEntries
        [⟨"SDK", "toolchain", "foo"⟩, ⟨"SDK", "default_arch", "x86_64"⟩,
          ⟨"SDK", "iphoneos_deployment_target", "10.0"⟩]).name = none ∧
    (sdkCfgOfEntries
        [⟨"SDK", "toolchain", "foo"⟩, ⟨"SDK", "default_arch", "x86_64"⟩,
          ⟨"SDK", "iphoneos_deployment_target", "10.0"⟩]).version = none ∧
    request_command
        (fun s =>
          if s = "TOOLCHAINS" then some "TDef"
          else if s = "PATH" then some "/bin"
          else if s = "HOME" then some "/h" else none)
        ⟨["/d/SDKs/MacOSX.sdk", "/d/Toolchains/foo.toolchain", "/d/Toolchains/TDef.toolchain"],
          [("/d/SDKs/MacOSX.sdk/info.ini",
            [⟨"SDK", "toolchain", "foo"⟩, ⟨"SDK", "default_arch", "x86_64"⟩,
              ⟨"SDK", "iphoneos_deployment_target", "10.0"⟩])], [],
          ["/d/usr/bin/clang"]⟩
        ⟨"/d", "MacOSX", "", true, false, none, none, false, ⟨false, false⟩⟩ "clang" =
      ReqResult.execed "/d/usr/bin/clang"
        { sdkroot := "/d/SDKs/MacOSX.sdk"
          path := "/d/usr/bin:/d/Toolchains/TDef.toolchain/usr/bin:/bin"
          ld_library_path := "/d/Toolchains/TDef.toolchain/usr/lib"
          home := "/h"
          developer_dir := "/d"
          target_triple := some "x86_64-apple-darwin4"
          deployment := some (DepKind.ios, "10.0") } false := by
  refine ⟨rfl, rfl, by decide⟩

/-- C2 amended: a metadata file that cannot be opened is the failure
the loader detects (ConfigNotFound): get_sdk_info fails and an
explicit-SDK invocation aborts with no child process started.  A file
that parses but leaves the record structurally incomplete is not
rejected: the loader returns the partial record without error (no
ConfigParseError exists in the code), and the invocation may continue
to exec. -/
theorem malformed_config_amended :
    (∀ (fs : FS) (p : String) (fl : DTFlags),
      fs.iniFile (p ++ "/info.ini") = none → get_sdk_info fs p fl = none) ∧
    (∀ (fs : FS) (p : String) (fl : DTFlags) (es : List IniEntry),
      fs.iniFile (p ++ "/info.ini") = some es →
      ∃ c f1, get_sdk_info fs p fl = some (c, f1)) ∧
    (∀ (env : String → Option String) (fs : FS) (st : XcrunState) (name sp : String),
      st.explicit_sdk_mode = true →
      st.current_sdk ≠ "" → st.current_toolchain ≠ "" →
      get_sdk_path fs st.developer_dir st.current_sdk = some sp →
      fs.iniFile (sp ++ "/info.ini") = none →
      request_command env fs st name = ReqResult.fail) := by
  refine ⟨?_, ?_, ?_⟩
  · intro fs p fl hini
    simp [get_sdk_info, ini_parse_sdk, hini]
  · intro fs p fl es hini
    refine ⟨(es.foldl sdk_cfg_handler (⟨none, none, none, none, none⟩, fl)).1,
      (es.foldl sdk_cfg_handler (⟨none, none, none, none, none⟩, fl)).2, ?_⟩
    simp [get_sdk_info, ini_parse_sdk, hini]
  · intro env fs st name sp h1 h2 h3 hsp hini
    simp [request_command, resolve_sdk_name, resolve_toolchain_name, h2, h3,
      build_search_string, h1, hsp, get_sdk_info, ini_parse_sdk, hini]

/-- C2 amended witness: the missing-file conjunct applied to a
concrete explicit-SDK invocation whose SDK directory exists but holds
no info.ini: the whole request fails with no exec. -/
theorem malformed_config_amended_witness :
    request_command (fun _ => none) ⟨["/d/SDKs/S.sdk"], [], [], []⟩
        ⟨"/d", "S", "T", true, false, none, none, false, ⟨false, false⟩⟩ "clang" =
      ReqResult.fail :=
  malformed_config_amended.2.2 (fun _ => none) ⟨["/d/SDKs/S.sdk"], [], [], []⟩
    ⟨"/d", "S", "T", true, false, none, none, false, ⟨false, false⟩⟩ "clang" "/d/SDKs/S.sdk"
    rfl (by decide) (by decide) (by decide) (by decide)

end Xcrun
